import Mathlib

/-!
Shallow embedding of the payment flow of the bleu-smart-flow repository.

The embedded code is:
* `supabase/functions/create-checkout/index.ts` — the checkout session
  builder (`createCheckout` below, with the account resolution of lines
  130-164 factored into `resolveCompanyAccount` and the session-creation
  phase of lines 194-337 factored into `checkoutWithAccount`);
* `supabase/functions/stripe-webhook/index.ts` — the webhook reconciler
  (`stripeWebhook` / `handleCheckoutCompleted` below);
* `src/components/ProfileTab.tsx`, function `markAsPaid` — the manual
  mark-as-paid path.

Conventions of the embedding:
* JavaScript numbers that carry money are modelled as exact rationals
  (`ℚ`); `Math.round` is Mathlib `round` (both round half toward plus
  infinity); amounts in minor units are `ℤ`.
* Nullable / possibly-undefined values are `Option`; the JavaScript
  falsy test on a string option `!x` is `x.getD "" = ""` (both `null`
  and the empty string are falsy).
* The Stripe SDK and the database client are external collaborators:
  their outcomes enter the model as explicit parameters (`ProcResult`
  for `stripe.checkout.sessions.create`, success booleans for database
  writes, a `verify` function for `stripe.webhooks.constructEvent`).
  Every call made to the processor is recorded in the `calls` trace of
  the outcome, so that claims about what was or was not sent to the
  processor are statable.
-/

namespace BleuSmartFlow

/-- A row of the `jobs` table, restricted to the columns the embedded
handlers read or write. -/
structure Job where
  id : String
  job_name : Option String
  client_name : Option String
  /-- Result of `parseFloat(job.price)`: `none` models `NaN`
  (missing or unparsable price), `some p` an exact parsed value. -/
  price : Option ℚ
  company_id : Option String
  status : String
  payment_url : Option String
  stripe_checkout_url : Option String
deriving DecidableEq, Repr

/-- A row of the `profiles` table, restricted to the columns used by the
connected-account lookup. -/
structure Profile where
  company_id : String
  stripe_account_id : Option String
  stripe_connected : Bool
deriving DecidableEq, Repr

/-- A row of the `payments` table as inserted by the webhook handler and
the manual mark-as-paid path. -/
structure Payment where
  job_id : String
  amount : ℚ
  payment_status : String
  paid_at : String
  card_saved : Bool
  /-- Set to `"manual"` by `markAsPaid`; absent on webhook inserts. -/
  payment_method : Option String
deriving DecidableEq, Repr

/-- The stored state the handlers read and write. -/
structure DB where
  jobs : List Job
  profiles : List Profile
  payments : List Payment
deriving DecidableEq, Repr

/-- Platform account id, `create-checkout/index.ts` line 14. -/
def PLATFORM_STRIPE_ACCOUNT_ID : String := "acct_1RWAfbLgPKVoUe8t"

/-- JavaScript `a || d` for a nullable string `a`: the default is taken
when `a` is `null` / `undefined` or the empty string. -/
def jsOr (a : Option String) (d : String) : String :=
  if a.getD "" = "" then d else a.getD ""

/-- The `payment_intent_data` block of a session configuration
(`create-checkout/index.ts` lines 251-256). -/
structure PaymentIntentData where
  application_fee_amount : ℤ
  destination : String
deriving DecidableEq, Repr

/-- The checkout session configuration built at
`create-checkout/index.ts` lines 220-263, flattened. -/
structure SessionConfig where
  currency : String
  product_name : String
  product_description : String
  unit_amount : ℤ
  quantity : Nat
  mode : String
  success_url : String
  cancel_url : String
  metadata_job_id : String
  metadata_client_name : String
  metadata_original_price : ℚ
  metadata_platform_fee_amount : ℚ
  metadata_company_id : String
  metadata_routing_method : String
  payment_intent_data : Option PaymentIntentData
deriving DecidableEq, Repr

/-- One call to `stripe.checkout.sessions.create`: the configuration and
the optional `stripeAccount` request option. -/
structure StripeCall where
  config : SessionConfig
  stripeAccount : Option String
deriving DecidableEq, Repr

/-- Outcome of one `stripe.checkout.sessions.create` call, as seen by
the handler. `errSelfTransfer` stands for a rejection whose message
contains the text `cannot be set to your own account`
(the test at `create-checkout/index.ts` line 311); `errOther` for any
other rejection. -/
inductive ProcResult where
  | ok (url : String) (id : String)
  | errSelfTransfer (msg : String)
  | errOther (msg : String)
deriving DecidableEq, Repr

/-- JSON body of a create-checkout response, restricted to the fields
the claims mention. -/
structure RespBody where
  success : Bool
  url : Option String
  sessionId : Option String
  error : Option String
  warning : Option String
deriving DecidableEq, Repr

/-- An HTTP response of the create-checkout handler: a status code and,
for non-preflight branches, a JSON body. The CORS preflight branch
(lines 21-27) answers with a `null` body, modelled as `none`. -/
structure HttpResponse where
  status : Nat
  body : Option RespBody
deriving DecidableEq, Repr

/-- Everything one invocation of the create-checkout handler observes:
the request, the environment secrets, the stored state, and the
responses of the external collaborators. `requestBody = none` models a
JSON parse failure; `requestBody = some jid` the parsed body with its
optional `jobId` field. -/
structure CheckoutEnv where
  method : String
  origin : String
  stripeSecretKey : Option String
  requestBody : Option (Option String)
  db : DB
  firstCreate : ProcResult
  fallbackCreate : ProcResult
  /-- Whether the `payment_url` update on the job succeeds. -/
  updateOk : Bool
deriving DecidableEq, Repr

/-- Result of one invocation: the HTTP response, the trace of calls made
to the processor, and the stored state afterwards. -/
structure CheckoutOutcome where
  response : HttpResponse
  calls : List StripeCall
  db : DB
deriving DecidableEq, Repr

/-- The `.single()` job lookup (`create-checkout/index.ts` lines 93-97):
succeeds exactly when one row matches the id. -/
def findJob (db : DB) (jid : String) : Option Job :=
  match db.jobs.filter (fun j => j.id == jid) with
  | [j] => some j
  | _ => none

/-- The `.single()` profile lookup (`create-checkout/index.ts` lines
135-140): one row with the given company id and `stripe_connected`
true. -/
def findConnectedProfile (db : DB) (cid : String) : Option Profile :=
  match db.profiles.filter (fun p => p.company_id == cid && p.stripe_connected) with
  | [p] => some p
  | _ => none

/-- Account resolution of `create-checkout/index.ts` lines 130-164:
returns `companyStripeAccountId` and `useConnectedAccount`. -/
def resolveCompanyAccount (db : DB) (job : Job) : Option String × Bool :=
  if job.company_id.getD "" = "" then (none, false)
  else
    match findConnectedProfile db (job.company_id.getD "") with
    | none => (none, false)
    | some prof =>
      if prof.stripe_account_id.getD "" = "" then (none, false)
      else if prof.stripe_account_id.getD "" = PLATFORM_STRIPE_ACCOUNT_ID then
        (prof.stripe_account_id, false)
      else (prof.stripe_account_id, true)

/-- An error response of the create-checkout handler: every error branch
answers HTTP 200 with `success:false` and a message. -/
def errorResponse (msg : String) : HttpResponse :=
  ⟨200, some ⟨false, none, none, some msg, none⟩⟩

/-- Write `payment_url` and `stripe_checkout_url` on the matching job
(`create-checkout/index.ts` lines 275-281). -/
def updateJobUrls (db : DB) (jid : String) (url : String) : DB :=
  { db with jobs := db.jobs.map (fun j =>
      if j.id == jid then { j with payment_url := some url, stripe_checkout_url := some url }
      else j) }

/-- Session-creation phase of the create-checkout handler, lines 194-337
of `create-checkout/index.ts`: fee computation, minimum-price check,
session configuration, the processor call, the self-transfer fallback,
and the best-effort `payment_url` persistence. -/
def checkoutWithAccount (env : CheckoutEnv) (jobId : String) (job : Job) (jobPrice : ℚ)
    (companyStripeAccountId : Option String) (useConnectedAccount : Bool) : CheckoutOutcome :=
  let jobPriceInCents : ℤ := round (jobPrice * 100)
  let platformFeeInCents : ℤ :=
    if useConnectedAccount then round (jobPrice * 0.05 * 100) else 0
  if jobPriceInCents < 50 then
    ⟨errorResponse "Job price too low for payment processing (minimum $0.50)", [], env.db⟩
  else
    let connected : Bool := useConnectedAccount && !(companyStripeAccountId.getD "" == "")
    let sessionConfig : SessionConfig :=
      { currency := "usd"
        product_name := jsOr job.job_name "Service"
        product_description := "Service for " ++ jsOr job.client_name "Client"
        unit_amount := jobPriceInCents
        quantity := 1
        mode := "payment"
        success_url := env.origin ++ "/payment-success?session_id=\x7bCHECKOUT_SESSION_ID\x7d"
        cancel_url := env.origin ++ "/"
        metadata_job_id := jobId
        metadata_client_name := jsOr job.client_name "Unknown Client"
        metadata_original_price := jobPrice
        metadata_platform_fee_amount := (platformFeeInCents : ℚ) / 100
        metadata_company_id := job.company_id.getD ""
        metadata_routing_method := if useConnectedAccount then "connected_account" else "platform_only"
        payment_intent_data :=
          if connected then some ⟨platformFeeInCents, companyStripeAccountId.getD ""⟩ else none }
    let call1 : StripeCall := ⟨sessionConfig, if connected then companyStripeAccountId else none⟩
    match env.firstCreate with
    | .ok url sid =>
        let dbAfter := if env.updateOk then updateJobUrls env.db jobId url else env.db
        ⟨⟨200, some ⟨true, some url, some sid, none, none⟩⟩, [call1], dbAfter⟩
    | .errSelfTransfer _ =>
        let fallbackConfig : SessionConfig := { sessionConfig with payment_intent_data := none }
        let call2 : StripeCall := ⟨fallbackConfig, none⟩
        match env.fallbackCreate with
        | .ok url sid =>
            ⟨⟨200, some ⟨true, some url, some sid, none,
                some "Routed to platform account due to Stripe Connect configuration issue"⟩⟩,
              [call1, call2], env.db⟩
        | .errSelfTransfer m =>
            ⟨errorResponse (if m = "" then "Internal server error" else m), [call1, call2], env.db⟩
        | .errOther m =>
            ⟨errorResponse (if m = "" then "Internal server error" else m), [call1, call2], env.db⟩
    | .errOther m =>
        ⟨errorResponse (if m = "" then "Internal server error" else m), [call1], env.db⟩

/-- The create-checkout handler, `create-checkout/index.ts` lines
16-352. -/
def createCheckout (env : CheckoutEnv) : CheckoutOutcome :=
  if env.method = "OPTIONS" then ⟨⟨200, none⟩, [], env.db⟩
  else if env.stripeSecretKey.getD "" = "" then
    ⟨errorResponse "Stripe configuration missing. Please add your Stripe secret key to edge function secrets.",
      [], env.db⟩
  else
    match env.requestBody with
    | none => ⟨errorResponse "Invalid request body - must be valid JSON", [], env.db⟩
    | some jobIdOpt =>
      if jobIdOpt.getD "" = "" then ⟨errorResponse "Job ID is required", [], env.db⟩
      else
        match findJob env.db (jobIdOpt.getD "") with
        | none => ⟨errorResponse "Failed to fetch job", [], env.db⟩
        | some job =>
          match job.price with
          | none => ⟨errorResponse "Invalid or missing price in job data", [], env.db⟩
          | some jobPrice =>
            if jobPrice ≤ 0 then
              ⟨errorResponse "Invalid or missing price in job data", [], env.db⟩
            else
              checkoutWithAccount env (jobIdOpt.getD "") job jobPrice
                (resolveCompanyAccount env.db job).1 (resolveCompanyAccount env.db job).2

/-- The event carried by a verified `stripe-webhook` payload, restricted
to the fields the handler reads. -/
structure WebhookEvent where
  type : String
  /-- `session.metadata.job_id`; `none` models an absent field. -/
  metadata_job_id : Option String
  /-- `session.amount_total`, nullable on the Stripe object. -/
  amount_total : Option ℤ
  session_id : String
deriving DecidableEq, Repr

/-- Status code and resulting stored state of one webhook delivery. -/
structure WebhookResult where
  status : Nat
  db : DB
deriving DecidableEq, Repr

/-- Set the matching job to status `paid`
(`stripe-webhook/index.ts` lines 67-70). -/
def setJobPaid (db : DB) (jid : String) : DB :=
  { db with jobs := db.jobs.map (fun j =>
      if j.id == jid then { j with status := "paid" } else j) }

/-- Append a payment row (`stripe-webhook/index.ts` lines 82-90). -/
def insertPayment (db : DB) (p : Payment) : DB :=
  { db with payments := db.payments ++ [p] }

/-- The `checkout.session.completed` branch of the webhook handler,
`stripe-webhook/index.ts` lines 48-98. The two database writes may each
fail (infrastructure error), modelled by the two booleans; a failed
write makes the handler throw, which the outer catch turns into a 500
response — with no rollback of the earlier write. -/
def handleCheckoutCompleted (event : WebhookEvent) (now : String)
    (jobUpdateOk paymentInsertOk : Bool) (db : DB) : WebhookResult :=
  if event.metadata_job_id.getD "" = "" then ⟨400, db⟩
  else
    let jobId := event.metadata_job_id.getD ""
    if jobUpdateOk = false then ⟨500, db⟩
    else
      let db1 := setJobPaid db jobId
      if paymentInsertOk = false then ⟨500, db1⟩
      else
        let paymentAmount : ℚ :=
          match event.amount_total with
          | some t => if t = 0 then 0 else (t : ℚ) / 100
          | none => 0
        ⟨200, insertPayment db1 ⟨jobId, paymentAmount, "paid", now, false, none⟩⟩

/-- The stripe-webhook handler, `stripe-webhook/index.ts` lines 11-115.
Signature verification (`stripe.webhooks.constructEvent`, line 39) is an
external collaborator, abstracted as `verify body signature secret`:
`none` means verification failed, `some event` yields the trusted
event. -/
def stripeWebhook (verify : String → String → String → Option WebhookEvent)
    (stripeSecretKey webhookSecret : Option String)
    (signature : Option String) (body : String) (now : String)
    (jobUpdateOk paymentInsertOk : Bool) (db : DB) : WebhookResult :=
  if signature.getD "" = "" then ⟨500, db⟩
  else if stripeSecretKey.getD "" = "" ∨ webhookSecret.getD "" = "" then ⟨500, db⟩
  else
    match verify body (signature.getD "") (webhookSecret.getD "") with
    | none => ⟨400, db⟩
    | some event =>
      if event.type = "checkout.session.completed" then
        handleCheckoutCompleted event now jobUpdateOk paymentInsertOk db
      else ⟨200, db⟩

/-- The manual mark-as-paid path, `src/components/ProfileTab.tsx` lines
526-586: update the job status, then insert a payment row with
`payment_method = manual`. Each write may fail; a failure throws (toast
in the UI) without rolling back the earlier write. The frontend job row
carries a numeric price, read here as `job.price.getD 0`. -/
def markAsPaid (job : Job) (now : String)
    (jobUpdateOk paymentInsertOk : Bool) (db : DB) : DB :=
  if jobUpdateOk = false then db
  else
    let db1 := setJobPaid db job.id
    if paymentInsertOk = false then db1
    else insertPayment db1 ⟨job.id, job.price.getD 0, "paid", now, false, some "manual"⟩

/-- One transition of the stored state through either of the two writers
of the paid invariant: a webhook delivery or a manual mark-as-paid. -/
inductive DBStep : DB → DB → Prop where
  | webhook (verify : String → String → String → Option WebhookEvent)
      (stripeSecretKey webhookSecret : Option String)
      (signature : Option String) (body now : String)
      (jobUpdateOk paymentInsertOk : Bool) (db : DB) :
      DBStep db (stripeWebhook verify stripeSecretKey webhookSecret signature body now
        jobUpdateOk paymentInsertOk db).db
  | markPaid (job : Job) (now : String) (jobUpdateOk paymentInsertOk : Bool) (db : DB) :
      DBStep db (markAsPaid job now jobUpdateOk paymentInsertOk db)

/-- The invariant of spec section 3: every job in status `paid` has at
least one payment row with `payment_status = paid`. -/
def paidInvariant (db : DB) : Bool :=
  db.jobs.all (fun j =>
    !(j.status == "paid") ||
      db.payments.any (fun p => p.job_id == j.id && p.payment_status == "paid"))

/-- Status of the job with the given id, if stored. -/
def jobStatus (db : DB) (jid : String) : Option String :=
  (db.jobs.find? (fun j => j.id == jid)).map Job.status

/-! Concrete fixtures used by witnesses and counterexamples. -/

/-- A stored pending job priced at one hundred dollars. -/
def jobMain : Job :=
  ⟨"job1", some "Lawn Care", some "Bob", some 100, some "c1", "pending", none, none⟩

/-- A company profile with a verified connected account distinct from
the platform account. -/
def profConnected : Profile := ⟨"c1", some "acct_X", true⟩

/-- A company profile whose connected account is the platform account
itself. -/
def profPlatform : Profile := ⟨"c1", some PLATFORM_STRIPE_ACCOUNT_ID, true⟩

/-- Stored state with no connected profile. -/
def dbNoAcct : DB := ⟨[jobMain], [], []⟩

/-- Stored state with a verified connected account for the company. -/
def dbConnected : DB := ⟨[jobMain], [profConnected], []⟩

/-- Stored state whose connected account equals the platform account. -/
def dbPlatform : DB := ⟨[jobMain], [profPlatform], []⟩

/-- A verified completed-checkout event for `job1`, total 10000 minor
units. -/
def evPaid : WebhookEvent := ⟨"checkout.session.completed", some "job1", some 10000, "cs_1"⟩

/-- A verifier that accepts every delivery as `evPaid` (valid signature
on the completed-checkout payload). -/
def verifyPaid : String → String → String → Option WebhookEvent := fun _ _ _ => some evPaid

/-- A verifier that rejects every delivery (signature mismatch). -/
def verifyReject : String → String → String → Option WebhookEvent := fun _ _ _ => none

/-- A well-formed create-checkout invocation against `dbConnected`. -/
def envBase : CheckoutEnv :=
  { method := "POST"
    origin := "https://app.example"
    stripeSecretKey := some "sk_test"
    requestBody := some (some "job1")
    db := dbConnected
    firstCreate := .ok "https://pay.example/s1" "cs_1"
    fallbackCreate := .ok "https://pay.example/s2" "cs_2"
    updateOk := true }

/-- A job priced at thirty cents, below the processor minimum. -/
def jobCheap : Job := { jobMain with price := some (0.30 : ℚ) }

/-- Stored state holding only the below-minimum job. -/
def dbCheap : DB := ⟨[jobCheap], [], []⟩

/-! Helper lemmas about the checkout path. -/

/-- A price worth at least 50 minor units after rounding is positive. -/
lemma price_pos_of_min_cents (p : ℚ) (h : (50 : ℤ) ≤ round (p * 100)) : 0 < p := by
  rw [round_eq] at h
  have hle := Int.le_floor.mp h
  push_cast at hle
  linarith

/-- When account resolution reports a connected account, that account id
is a nonempty string. -/
lemma resolveCompanyAccount_ne_empty (db : DB) (job : Job) (a : String) (u : Bool)
    (h : resolveCompanyAccount db job = (some a, u)) : a ≠ "" := by
  unfold resolveCompanyAccount at h
  split at h
  · simp at h
  · split at h
    · simp at h
    · rename_i prof _
      split at h
      · simp at h
      · rename_i hne
        split at h <;>
          (rw [Prod.mk.injEq] at h
           intro hae
           rw [h.1, hae] at hne
           simp at hne)

/-- With no profile rows stored, account resolution always reports
platform-only mode. -/
lemma resolveCompanyAccount_no_profiles (jobs : List Job) (pays : List Payment) (job : Job) :
    resolveCompanyAccount ⟨jobs, [], pays⟩ job = (none, false) := by
  unfold resolveCompanyAccount findConnectedProfile
  split <;> simp

/-- Reduction of the full handler to its session-creation phase, under
the hypotheses that the request is well formed, the job is stored and
its price parses to a positive value. -/
lemma createCheckout_eq_with (env : CheckoutEnv) (jid : String) (job : Job) (p : ℚ)
    (hm : env.method ≠ "OPTIONS")
    (hk : env.stripeSecretKey.getD "" ≠ "")
    (hb : env.requestBody = some (some jid))
    (hj : jid ≠ "")
    (hfind : findJob env.db jid = some job)
    (hp : job.price = some p)
    (hpos : 0 < p) :
    createCheckout env = checkoutWithAccount env jid job p
      (resolveCompanyAccount env.db job).1 (resolveCompanyAccount env.db job).2 := by
  unfold createCheckout
  rw [if_neg hm, if_neg hk, hb]
  simp only [Option.getD_some]
  rw [if_neg hj, hfind]
  simp only [hp]
  rw [if_neg (not_le.mpr hpos)]

/-- Evaluation fact: one hundred dollars rounds to at least 50 minor
units. -/
lemma round_cents_hundred : (50 : ℤ) ≤ round ((100 : ℚ) * 100) := by norm_num

/-- Evaluation fact: thirty cents rounds to fewer than 50 minor
units. -/
lemma round_cents_thirty_lt : round ((0.30 : ℚ) * 100) < (50 : ℤ) := by norm_num

/-- Evaluation fact: thirty cents is a positive price. -/
lemma thirty_cents_pos : (0 : ℚ) < 0.30 := by norm_num

/-- In platform-only mode the session-creation phase ignores both the
resolved account id and the stored state as far as the response and the
processor calls are concerned. -/
lemma checkoutWithAccount_platform_resp_calls (env : CheckoutEnv) (d : DB) (jid : String)
    (job : Job) (p : ℚ) (acct acct' : Option String) :
    ((checkoutWithAccount env jid job p acct false).response =
      (checkoutWithAccount { env with db := d } jid job p acct' false).response) ∧
    ((checkoutWithAccount env jid job p acct false).calls =
      (checkoutWithAccount { env with db := d } jid job p acct' false).calls) := by
  unfold checkoutWithAccount
  by_cases hlt : round (p * 100) < 50
  · simp [hlt]
  · rcases h1 : env.firstCreate with _ | m | m <;>
      rcases h2 : env.fallbackCreate with _ | m2 | m2 <;>
        simp [h1, h2, hlt]

/-- In platform-only mode no call carries transfer or fee
instructions. -/
lemma checkoutWithAccount_platform_no_transfer (env : CheckoutEnv) (jid : String)
    (job : Job) (p : ℚ) (acct : Option String) :
    ∀ c ∈ (checkoutWithAccount env jid job p acct false).calls,
      c.config.payment_intent_data = none ∧ c.stripeAccount = none := by
  unfold checkoutWithAccount
  by_cases hlt : round (p * 100) < 50
  · simp [hlt]
  · rcases h1 : env.firstCreate with _ | m | m <;>
      rcases h2 : env.fallbackCreate with _ | m2 | m2 <;>
        simp [h1, h2, hlt]

/-- Every branch of the session-creation phase answers status 200 with a
JSON body. -/
lemma checkoutWithAccount_status_200 (env : CheckoutEnv) (jid : String) (job : Job)
    (p : ℚ) (acct : Option String) (useConn : Bool) :
    (checkoutWithAccount env jid job p acct useConn).response.status = 200 ∧
    ((checkoutWithAccount env jid job p acct useConn).response.body).isSome = true := by
  unfold checkoutWithAccount
  by_cases hlt : round (p * 100) < 50
  · simp [hlt, errorResponse]
  · rcases h1 : env.firstCreate with _ | m | m <;>
      rcases h2 : env.fallbackCreate with _ | m2 | m2 <;>
        simp [h1, h2, hlt, errorResponse]

/-! Theorems settling the claims. -/

/-- C1: the claim states that delivering the same verified
completed-checkout event twice yields exactly one payment record, the
second delivery being rejected or a no-op. The handler has no
idempotency key: this theorem evaluates two deliveries of the same
event and shows the second is accepted with status 200 and inserts a
second payment record for the job. -/
theorem webhook_replay_creates_duplicate_payment :
    (stripeWebhook verifyPaid (some "sk") (some "wh") (some "sig") "body" "t2" true true
        (stripeWebhook verifyPaid (some "sk") (some "wh") (some "sig") "body" "t1" true true
          dbNoAcct).db).status = 200 ∧
    jobStatus
      (stripeWebhook verifyPaid (some "sk") (some "wh") (some "sig") "body" "t2" true true
        (stripeWebhook verifyPaid (some "sk") (some "wh") (some "sig") "body" "t1" true true
          dbNoAcct).db).db "job1" = some "paid" ∧
    ((stripeWebhook verifyPaid (some "sk") (some "wh") (some "sig") "body" "t2" true true
        (stripeWebhook verifyPaid (some "sk") (some "wh") (some "sig") "body" "t1" true true
          dbNoAcct).db).db.payments.filter (fun p => p.job_id == "job1")).length = 2 := by
  decide

/-- C2: the claim states that every state reachable through the two
writers keeps the invariant that a paid job has a paid payment record,
including states where the payment insert fails after the job update.
This theorem exhibits a reachable violation: starting from a state
satisfying the invariant, one webhook delivery whose payment insert
fails leaves the job paid with no payment record. -/
theorem paid_job_without_payment_record_reachable :
    paidInvariant dbNoAcct = true ∧
    DBStep dbNoAcct
      (stripeWebhook verifyPaid (some "sk") (some "wh") (some "sig") "body" "t1" true false
        dbNoAcct).db ∧
    paidInvariant
      (stripeWebhook verifyPaid (some "sk") (some "wh") (some "sig") "body" "t1" true false
        dbNoAcct).db = false :=
  ⟨by decide,
    DBStep.webhook verifyPaid (some "sk") (some "wh") (some "sig") "body" "t1" true false dbNoAcct,
    by decide⟩

/-- C6: a webhook delivery whose payload fails signature verification is
answered with status 400 and the stored state is returned unchanged. -/
theorem webhook_invalid_signature_no_state_change
    (verify : String → String → String → Option WebhookEvent)
    (stripeSecretKey webhookSecret signature : Option String)
    (body now : String) (jobUpdateOk paymentInsertOk : Bool) (db : DB)
    (hsig : signature.getD "" ≠ "")
    (hkey : stripeSecretKey.getD "" ≠ "")
    (hsec : webhookSecret.getD "" ≠ "")
    (hv : verify body (signature.getD "") (webhookSecret.getD "") = none) :
    stripeWebhook verify stripeSecretKey webhookSecret signature body now
      jobUpdateOk paymentInsertOk db = ⟨400, db⟩ := by
  unfold stripeWebhook
  rw [if_neg hsig, if_neg (not_or.mpr ⟨hkey, hsec⟩), hv]

/-- Witness for C6 at a concrete rejected delivery. -/
theorem webhook_invalid_signature_no_state_change_witness :
    ((some "sig" : Option String).getD "" ≠ "" ∧
      (some "sk" : Option String).getD "" ≠ "" ∧
      (some "wh" : Option String).getD "" ≠ "" ∧
      verifyReject "body" ((some "sig" : Option String).getD "")
        ((some "wh" : Option String).getD "") = none) ∧
    stripeWebhook verifyReject (some "sk") (some "wh") (some "sig") "body" "t1" true true
      dbNoAcct = ⟨400, dbNoAcct⟩ :=
  ⟨⟨by decide, by decide, by decide, rfl⟩,
    webhook_invalid_signature_no_state_change verifyReject (some "sk") (some "wh") (some "sig")
      "body" "t1" true true dbNoAcct (by decide) (by decide) (by decide) rfl⟩

/-- C3: for a job whose company has a verified connected account
distinct from the platform account, the session sent to the processor
carries an application fee of `round (price * 0.05 * 100)` minor units
and a transfer destination equal to that account id. -/
theorem connected_checkout_fee_and_destination
    (env : CheckoutEnv) (jid : String) (job : Job) (a : String) (p : ℚ)
    (hm : env.method ≠ "OPTIONS")
    (hk : env.stripeSecretKey.getD "" ≠ "")
    (hb : env.requestBody = some (some jid))
    (hj : jid ≠ "")
    (hfind : findJob env.db jid = some job)
    (hacct : resolveCompanyAccount env.db job = (some a, true))
    (hp : job.price = some p)
    (hmin : (50 : ℤ) ≤ round (p * 100)) :
    ((createCheckout env).calls.head?.map
        (fun c => (c.config.payment_intent_data, c.stripeAccount))) =
      some (some ⟨round (p * 0.05 * 100), a⟩, some a) := by
  have hpos := price_pos_of_min_cents p hmin
  have ha := resolveCompanyAccount_ne_empty env.db job a true hacct
  rw [createCheckout_eq_with env jid job p hm hk hb hj hfind hp hpos, hacct]
  unfold checkoutWithAccount
  rw [if_neg (not_lt.mpr hmin)]
  rcases h1 : env.firstCreate with _ | m | m <;>
    rcases h2 : env.fallbackCreate with _ | m2 | m2 <;>
      simp [h1, h2, ha]

/-- Witness for C3: price one hundred dollars, connected account
`acct_X`, fee five hundred minor units. -/
theorem connected_checkout_fee_and_destination_witness :
    (envBase.method ≠ "OPTIONS" ∧ envBase.stripeSecretKey.getD "" ≠ "" ∧
      envBase.requestBody = some (some "job1") ∧ "job1" ≠ "" ∧
      findJob envBase.db "job1" = some jobMain ∧
      resolveCompanyAccount envBase.db jobMain = (some "acct_X", true) ∧
      jobMain.price = some 100 ∧ (50 : ℤ) ≤ round ((100 : ℚ) * 100)) ∧
    ((createCheckout envBase).calls.head?.map
        (fun c => (c.config.payment_intent_data, c.stripeAccount))) =
      some (some ⟨round ((100 : ℚ) * 0.05 * 100), "acct_X"⟩, some "acct_X") :=
  ⟨⟨by decide, by decide, rfl, by decide, by decide, by decide, rfl, round_cents_hundred⟩,
    connected_checkout_fee_and_destination envBase "job1" jobMain "acct_X" 100
      (by decide) (by decide) rfl (by decide) (by decide) (by decide) rfl round_cents_hundred⟩

/-- C4: for a job whose company resolves to platform-only mode, the
session sent to the processor charges `round (price * 100)` minor units
with zero platform fee and no transfer instructions. -/
theorem platform_checkout_full_price_no_fee
    (env : CheckoutEnv) (jid : String) (job : Job) (p : ℚ)
    (hm : env.method ≠ "OPTIONS")
    (hk : env.stripeSecretKey.getD "" ≠ "")
    (hb : env.requestBody = some (some jid))
    (hj : jid ≠ "")
    (hfind : findJob env.db jid = some job)
    (hacct : resolveCompanyAccount env.db job = (none, false))
    (hp : job.price = some p)
    (hmin : (50 : ℤ) ≤ round (p * 100)) :
    ((createCheckout env).calls.head?.map
        (fun c => (c.config.unit_amount, c.config.metadata_platform_fee_amount,
          c.config.payment_intent_data, c.stripeAccount))) =
      some (round (p * 100), 0, none, none) := by
  have hpos := price_pos_of_min_cents p hmin
  rw [createCheckout_eq_with env jid job p hm hk hb hj hfind hp hpos, hacct]
  unfold checkoutWithAccount
  rw [if_neg (not_lt.mpr hmin)]
  rcases h1 : env.firstCreate with _ | m | m <;>
    rcases h2 : env.fallbackCreate with _ | m2 | m2 <;>
      simp [h1, h2]

/-- Witness for C4: price one hundred dollars, no connected account,
unit amount ten thousand minor units, zero fee. -/
theorem platform_checkout_full_price_no_fee_witness :
    (({ envBase with db := dbNoAcct } : CheckoutEnv).method ≠ "OPTIONS" ∧
      ({ envBase with db := dbNoAcct } : CheckoutEnv).stripeSecretKey.getD "" ≠ "" ∧
      ({ envBase with db := dbNoAcct } : CheckoutEnv).requestBody = some (some "job1") ∧
      "job1" ≠ "" ∧
      findJob ({ envBase with db := dbNoAcct } : CheckoutEnv).db "job1" = some jobMain ∧
      resolveCompanyAccount ({ envBase with db := dbNoAcct } : CheckoutEnv).db jobMain =
        (none, false) ∧
      jobMain.price = some 100 ∧ (50 : ℤ) ≤ round ((100 : ℚ) * 100)) ∧
    ((createCheckout { envBase with db := dbNoAcct }).calls.head?.map
        (fun c => (c.config.unit_amount, c.config.metadata_platform_fee_amount,
          c.config.payment_intent_data, c.stripeAccount))) =
      some (round ((100 : ℚ) * 100), 0, none, none) :=
  ⟨⟨by decide, by decide, rfl, by decide, by decide, by decide, rfl, round_cents_hundred⟩,
    platform_checkout_full_price_no_fee { envBase with db := dbNoAcct } "job1" jobMain 100
      (by decide) (by decide) rfl (by decide) (by decide) (by decide) rfl round_cents_hundred⟩

/-- C7: a job whose positive price rounds to fewer than 50 minor units
is rejected with the below-minimum error, no call is made to the
processor, and the stored state is unchanged. -/
theorem below_minimum_price_rejected_before_processor
    (env : CheckoutEnv) (jid : String) (job : Job) (p : ℚ)
    (hm : env.method ≠ "OPTIONS")
    (hk : env.stripeSecretKey.getD "" ≠ "")
    (hb : env.requestBody = some (some jid))
    (hj : jid ≠ "")
    (hfind : findJob env.db jid = some job)
    (hp : job.price = some p)
    (hpos : 0 < p)
    (hmax : round (p * 100) < (50 : ℤ)) :
    (createCheckout env).calls = [] ∧
    (createCheckout env).response =
      errorResponse "Job price too low for payment processing (minimum $0.50)" ∧
    (createCheckout env).db = env.db := by
  rw [createCheckout_eq_with env jid job p hm hk hb hj hfind hp hpos]
  unfold checkoutWithAccount
  rw [if_pos hmax]
  exact ⟨rfl, rfl, rfl⟩

/-- Witness for C7: price thirty cents is rejected before any processor
call. -/
theorem below_minimum_price_rejected_before_processor_witness :
    (({ envBase with db := dbCheap } : CheckoutEnv).method ≠ "OPTIONS" ∧
      ({ envBase with db := dbCheap } : CheckoutEnv).stripeSecretKey.getD "" ≠ "" ∧
      ({ envBase with db := dbCheap } : CheckoutEnv).requestBody = some (some "job1") ∧
      "job1" ≠ "" ∧
      findJob ({ envBase with db := dbCheap } : CheckoutEnv).db "job1" = some jobCheap ∧
      jobCheap.price = some (0.30 : ℚ) ∧ (0 : ℚ) < 0.30 ∧
      round ((0.30 : ℚ) * 100) < (50 : ℤ)) ∧
    ((createCheckout { envBase with db := dbCheap }).calls = [] ∧
      (createCheckout { envBase with db := dbCheap }).response =
        errorResponse "Job price too low for payment processing (minimum $0.50)" ∧
      (createCheckout { envBase with db := dbCheap }).db =
        ({ envBase with db := dbCheap } : CheckoutEnv).db) :=
  ⟨⟨by decide, by decide, rfl, by decide, rfl, rfl, thirty_cents_pos, round_cents_thirty_lt⟩,
    below_minimum_price_rejected_before_processor { envBase with db := dbCheap } "job1" jobCheap
      (0.30 : ℚ) (by decide) (by decide) rfl (by decide) rfl rfl thirty_cents_pos
      round_cents_thirty_lt⟩

/-- C5: when the company resolves to its connected account being the
platform account itself, the handler produces the same response and the
same processor calls as the same invocation with no stored profile, and
no call ever carries transfer or fee instructions. -/
theorem platform_account_id_behaves_as_disconnected
    (env : CheckoutEnv) (jid : String) (job : Job) (p : ℚ)
    (hm : env.method ≠ "OPTIONS")
    (hk : env.stripeSecretKey.getD "" ≠ "")
    (hb : env.requestBody = some (some jid))
    (hj : jid ≠ "")
    (hfind : findJob env.db jid = some job)
    (hacct : resolveCompanyAccount env.db job = (some PLATFORM_STRIPE_ACCOUNT_ID, false))
    (hp : job.price = some p)
    (hpos : 0 < p) :
    ((createCheckout env).response =
      (createCheckout { env with db := { env.db with profiles := [] } }).response) ∧
    ((createCheckout env).calls =
      (createCheckout { env with db := { env.db with profiles := [] } }).calls) ∧
    ∀ c ∈ (createCheckout env).calls,
      c.config.payment_intent_data = none ∧ c.stripeAccount = none := by
  rw [createCheckout_eq_with env jid job p hm hk hb hj hfind hp hpos,
    createCheckout_eq_with { env with db := { env.db with profiles := [] } } jid job p
      hm hk hb hj hfind hp hpos,
    hacct, resolveCompanyAccount_no_profiles env.db.jobs env.db.payments job]
  exact ⟨(checkoutWithAccount_platform_resp_calls env { env.db with profiles := [] } jid job p
      (some PLATFORM_STRIPE_ACCOUNT_ID) none).1,
    (checkoutWithAccount_platform_resp_calls env { env.db with profiles := [] } jid job p
      (some PLATFORM_STRIPE_ACCOUNT_ID) none).2,
    checkoutWithAccount_platform_no_transfer env jid job p (some PLATFORM_STRIPE_ACCOUNT_ID)⟩

/-- Witness for C5: the stored profile carries the platform account id;
the run matches the run with no profiles at all. -/
theorem platform_account_id_behaves_as_disconnected_witness :
    (({ envBase with db := dbPlatform } : CheckoutEnv).method ≠ "OPTIONS" ∧
      ({ envBase with db := dbPlatform } : CheckoutEnv).stripeSecretKey.getD "" ≠ "" ∧
      ({ envBase with db := dbPlatform } : CheckoutEnv).requestBody = some (some "job1") ∧
      "job1" ≠ "" ∧
      findJob ({ envBase with db := dbPlatform } : CheckoutEnv).db "job1" = some jobMain ∧
      resolveCompanyAccount ({ envBase with db := dbPlatform } : CheckoutEnv).db jobMain =
        (some PLATFORM_STRIPE_ACCOUNT_ID, false) ∧
      jobMain.price = some 100 ∧ (0 : ℚ) < 100) ∧
    (((createCheckout { envBase with db := dbPlatform }).response =
        (createCheckout { { envBase with db := dbPlatform } with
          db := { ({ envBase with db := dbPlatform } : CheckoutEnv).db with
            profiles := [] } }).response) ∧
      ((createCheckout { envBase with db := dbPlatform }).calls =
        (createCheckout { { envBase with db := dbPlatform } with
          db := { ({ envBase with db := dbPlatform } : CheckoutEnv).db with
            profiles := [] } }).calls) ∧
      ∀ c ∈ (createCheckout { envBase with db := dbPlatform }).calls,
        c.config.payment_intent_data = none ∧ c.stripeAccount = none) :=
  ⟨⟨by decide, by decide, rfl, by decide, by decide, by decide, rfl, by decide⟩,
    platform_account_id_behaves_as_disconnected { envBase with db := dbPlatform } "job1"
      jobMain 100 (by decide) (by decide) rfl (by decide) (by decide) (by decide) rfl
      (by decide)⟩

/-- C8: when the first processor call is rejected with the self-transfer
error and the fallback call succeeds, the handler makes exactly two
calls, the second being the first configuration with the transfer and
application-fee fields removed and no account option, and answers
success with the fallback session. -/
theorem self_transfer_fallback_retries_platform_only
    (env : CheckoutEnv) (jid : String) (job : Job) (a : String) (p : ℚ)
    (msg url sid : String)
    (hm : env.method ≠ "OPTIONS")
    (hk : env.stripeSecretKey.getD "" ≠ "")
    (hb : env.requestBody = some (some jid))
    (hj : jid ≠ "")
    (hfind : findJob env.db jid = some job)
    (hacct : resolveCompanyAccount env.db job = (some a, true))
    (hp : job.price = some p)
    (hmin : (50 : ℤ) ≤ round (p * 100))
    (hfirst : env.firstCreate = ProcResult.errSelfTransfer msg)
    (hfb : env.fallbackCreate = ProcResult.ok url sid) :
    (createCheckout env).calls.length = 2 ∧
    (createCheckout env).calls[1]? = ((createCheckout env).calls[0]?).map
      (fun c => ⟨{ c.config with payment_intent_data := none }, none⟩) ∧
    (createCheckout env).response =
      ⟨200, some ⟨true, some url, some sid, none,
        some "Routed to platform account due to Stripe Connect configuration issue"⟩⟩ := by
  have hpos := price_pos_of_min_cents p hmin
  rw [createCheckout_eq_with env jid job p hm hk hb hj hfind hp hpos, hacct]
  unfold checkoutWithAccount
  rw [if_neg (not_lt.mpr hmin)]
  simp [hfirst, hfb]

/-- Witness for C8 at a concrete self-transfer rejection followed by a
successful fallback. -/
theorem self_transfer_fallback_retries_platform_only_witness :
    (({ envBase with
        firstCreate := ProcResult.errSelfTransfer
          "The destination account cannot be set to your own account" } : CheckoutEnv).method ≠
        "OPTIONS" ∧
      ({ envBase with
        firstCreate := ProcResult.errSelfTransfer
          "The destination account cannot be set to your own account" } :
          CheckoutEnv).stripeSecretKey.getD "" ≠ "" ∧
      findJob envBase.db "job1" = some jobMain ∧
      resolveCompanyAccount envBase.db jobMain = (some "acct_X", true) ∧
      jobMain.price = some 100 ∧ (50 : ℤ) ≤ round ((100 : ℚ) * 100)) ∧
    ((createCheckout { envBase with
        firstCreate := ProcResult.errSelfTransfer
          "The destination account cannot be set to your own account" }).calls.length = 2 ∧
      (createCheckout { envBase with
        firstCreate := ProcResult.errSelfTransfer
          "The destination account cannot be set to your own account" }).calls[1]? =
        ((createCheckout { envBase with
          firstCreate := ProcResult.errSelfTransfer
            "The destination account cannot be set to your own account" }).calls[0]?).map
          (fun c => ⟨{ c.config with payment_intent_data := none }, none⟩) ∧
      (createCheckout { envBase with
        firstCreate := ProcResult.errSelfTransfer
          "The destination account cannot be set to your own account" }).response =
        ⟨200, some ⟨true, some "https://pay.example/s2", some "cs_2", none,
          some "Routed to platform account due to Stripe Connect configuration issue"⟩⟩) :=
  ⟨⟨by decide, by decide, by decide, by decide, rfl, round_cents_hundred⟩,
    self_transfer_fallback_retries_platform_only
      { envBase with
        firstCreate := ProcResult.errSelfTransfer
          "The destination account cannot be set to your own account" }
      "job1" jobMain "acct_X" 100
      "The destination account cannot be set to your own account"
      "https://pay.example/s2" "cs_2"
      (by decide) (by decide) rfl (by decide) (by decide) (by decide) rfl
      round_cents_hundred rfl rfl⟩

/-- C9: when the processor call succeeds but persisting the checkout URL
on the job fails, the handler still answers success with the generated
URL and session id, leaves the stored state untouched, and the response
is identical to the one of the same invocation with a successful
persistence. -/
theorem url_persistence_failure_still_success
    (env : CheckoutEnv) (jid : String) (job : Job) (p : ℚ) (url sid : String)
    (hm : env.method ≠ "OPTIONS")
    (hk : env.stripeSecretKey.getD "" ≠ "")
    (hb : env.requestBody = some (some jid))
    (hj : jid ≠ "")
    (hfind : findJob env.db jid = some job)
    (hp : job.price = some p)
    (hmin : (50 : ℤ) ≤ round (p * 100))
    (hfirst : env.firstCreate = ProcResult.ok url sid)
    (hup : env.updateOk = false) :
    (createCheckout env).response = ⟨200, some ⟨true, some url, some sid, none, none⟩⟩ ∧
    (createCheckout env).db = env.db ∧
    (createCheckout env).response =
      (createCheckout { env with updateOk := true }).response := by
  have hpos := price_pos_of_min_cents p hmin
  have hfirst' : ({ env with updateOk := true } : CheckoutEnv).firstCreate =
    ProcResult.ok url sid := hfirst
  rw [createCheckout_eq_with env jid job p hm hk hb hj hfind hp hpos,
    createCheckout_eq_with { env with updateOk := true } jid job p hm hk hb hj hfind hp hpos]
  unfold checkoutWithAccount
  simp only [if_neg (not_lt.mpr hmin)]
  simp [hfirst, hfirst', hup]

/-- Witness for C9 at a concrete failed URL persistence. -/
theorem url_persistence_failure_still_success_witness :
    (({ envBase with updateOk := false } : CheckoutEnv).method ≠ "OPTIONS" ∧
      findJob ({ envBase with updateOk := false } : CheckoutEnv).db "job1" = some jobMain ∧
      jobMain.price = some 100 ∧ (50 : ℤ) ≤ round ((100 : ℚ) * 100) ∧
      ({ envBase with updateOk := false } : CheckoutEnv).updateOk = false) ∧
    ((createCheckout { envBase with updateOk := false }).response =
        ⟨200, some ⟨true, some "https://pay.example/s1", some "cs_1", none, none⟩⟩ ∧
      (createCheckout { envBase with updateOk := false }).db =
        ({ envBase with updateOk := false } : CheckoutEnv).db ∧
      (createCheckout { envBase with updateOk := false }).response =
        (createCheckout { { envBase with updateOk := false } with
          updateOk := true }).response) :=
  ⟨⟨by decide, by decide, rfl, round_cents_hundred, rfl⟩,
    url_persistence_failure_still_success { envBase with updateOk := false } "job1" jobMain
      100 "https://pay.example/s1" "cs_1" (by decide) (by decide) rfl (by decide) (by decide)
      rfl round_cents_hundred rfl rfl⟩

/-- C10 counterexample: the claim states that every input receives a 200
response with a JSON body carrying a boolean success field, but the CORS
preflight branch answers a 200 with a null body and no success field. -/
theorem preflight_response_lacks_success_field :
    (createCheckout { envBase with method := "OPTIONS" }).response.body = none := rfl

/-- C10 amended: every non-preflight input receives HTTP status 200 with
a JSON body carrying a boolean success field; no error condition uses a
non-200 status. -/
theorem non_preflight_always_200_with_success_field (env : CheckoutEnv)
    (h : env.method ≠ "OPTIONS") :
    (createCheckout env).response.status = 200 ∧
    ((createCheckout env).response.body).isSome = true := by
  unfold createCheckout
  rw [if_neg h]
  split
  · exact ⟨rfl, rfl⟩
  · split
    · exact ⟨rfl, rfl⟩
    · split
      · exact ⟨rfl, rfl⟩
      · split
        · exact ⟨rfl, rfl⟩
        · split
          · exact ⟨rfl, rfl⟩
          · split
            · exact ⟨rfl, rfl⟩
            · exact checkoutWithAccount_status_200 env _ _ _ _ _

/-- Witness for C10 at a concrete well-formed invocation. -/
theorem non_preflight_always_200_with_success_field_witness :
    envBase.method ≠ "OPTIONS" ∧
    ((createCheckout envBase).response.status = 200 ∧
      ((createCheckout envBase).response.body).isSome = true) :=
  ⟨by decide, non_preflight_always_200_with_success_field envBase (by decide)⟩

end BleuSmartFlow
